import Mathlib

/-!
Shallow embedding of the book CRUD service core:
the `Book` record and its pydantic validators (`app/models/book_models.py`),
the in-memory `BookStorage` operations (`app/services/storage.py`), and the
route-level create/update flows (`app/api/routes/books.py`).

Modelling conventions:
* timestamps (`datetime.now()`) are abstract clock values of type `Nat`,
  passed in as a `now` parameter wherever the source calls `datetime.now()`;
* `datetime.now().year` is a parameter `currentYear : Int`;
* `price` (a Python float used only for the comparison `v <= 0`) is a `Rat`;
* the Python `dict` is an association list updated in place on an existing
  key and appending new keys at the end, matching dict insertion-order
  semantics;
* a raised exception leaves the store unchanged, so stateful operations
  return a pair of the `Except` result and the resulting store.
-/

namespace BookService

/-- The whitespace characters stripped by Python's `str.strip()` (the ASCII
ones; the claims only involve spaces). -/
def pyIsSpace (c : Char) : Bool :=
  c == ' ' || c == '\t' || c == '\n' || c == '\r' || c == '\x0b' || c == '\x0c'

/-- Drops the leading whitespace characters of a character list. -/
def dropLeadingSpace : List Char → List Char
  | [] => []
  | c :: cs => if pyIsSpace c then dropLeadingSpace cs else c :: cs

/-- Python's `str.strip()`: removes leading and trailing whitespace. -/
def pyStrip (s : String) : String :=
  String.mk ((dropLeadingSpace ((dropLeadingSpace s.data).reverse)).reverse)

/-- A field-validation failure (pydantic `ValidationError`): the offending
field and its message. -/
structure ValErr where
  field : String
  msg : String
deriving Repr, DecidableEq

/-- The `Book` internal business entity (`book_models.py`).
`created_at` and `updated_at` are abstract clock values. -/
structure Book where
  id : String
  title : String
  author : String
  published_year : Int
  price : Rat
  tags : Option (List String)
  created_at : Nat
  updated_at : Nat
deriving Repr, DecidableEq

/-- Construction of a `Book` with `validate_on_init`: runs the three
field validators of `book_models.Book` in declaration order.
`title`/`author`: `if not v or not v.strip(): raise`, returning `v.strip()`;
`published_year`: `1900 <= v <= current_year` where `current_year` is the
calendar year at validation time; `price`: `v <= 0` is rejected.
The timestamps are not passed at any call site in the source, so both
default to the current clock value `now`. -/
def mkBook (currentYear : Int) (now : Nat) (id title author : String)
    (published_year : Int) (price : Rat) (tags : Option (List String)) :
    Except ValErr Book :=
  if title = "" ∨ pyStrip title = "" then
    .error ⟨"title", "Field cannot be empty or contain only whitespace"⟩
  else if author = "" ∨ pyStrip author = "" then
    .error ⟨"author", "Field cannot be empty or contain only whitespace"⟩
  else if ¬ (1900 ≤ published_year ∧ published_year ≤ currentYear) then
    .error ⟨"published_year", "Year must be between 1900 and the current year"⟩
  else if price ≤ 0 then
    .error ⟨"price", "Price must be greater than 0"⟩
  else
    .ok ⟨id, pyStrip title, pyStrip author, published_year, price, tags, now, now⟩

/-- The error kinds raised (wrapped in `BookStorageError`) by the storage
layer, one constructor per distinct `raise` site reachable for typed
arguments. -/
inductive StorageErr where
  /-- `ValueError("Book ID cannot be empty")` wrapped in `BookStorageError`. -/
  | invalidArgument (msg : String)
  /-- `ValueError("Book with ID '...' already exists")` wrapped in
  `BookStorageError`. -/
  | alreadyExists (id : String)
  /-- `book_to_response` conversion failure wrapped in `BookStorageError`. -/
  | conversionError (msg : String)
deriving Repr, DecidableEq

/-- The `BookStorage._books` dict: an association list from id to `Book`. -/
abbrev Store := List (String × Book)

/-- `book_id in self._books`. -/
def containsKey : Store → String → Bool
  | [], _ => false
  | p :: rest, k => p.1 == k || containsKey rest k

/-- `self._books.get(book_id)`. -/
def lookup : Store → String → Option Book
  | [], _ => none
  | p :: rest, k => if p.1 == k then some p.2 else lookup rest k

/-- `self._books[k] = b`: replaces the value in place when the key exists,
appends the new entry at the end otherwise (dict insertion-order
semantics). -/
def setKey : Store → String → Book → Store
  | [], k, b => [(k, b)]
  | p :: rest, k, b => if p.1 == k then (k, b) :: rest else p :: setKey rest k b

/-- `del self._books[k]`. -/
def eraseKey : Store → String → Store
  | [], _ => []
  | p :: rest, k => if p.1 == k then eraseKey rest k else p :: eraseKey rest k

/-- The keys of the store. -/
def keys (s : Store) : List String := s.map Prod.fst

/-- `list(self._books.values())`. -/
def values (s : Store) : List Book := s.map Prod.snd

/-- `BookStorage.create_book`: rejects an empty id (`InvalidArgument`) and a
duplicate id (`AlreadyExists`); otherwise inserts the book under its own id
and returns it. A raised error leaves the store unchanged. -/
def create_book (s : Store) (book : Book) :
    Except StorageErr Book × Store :=
  if book.id = "" then
    (.error (.invalidArgument "Book ID cannot be empty"), s)
  else if containsKey s book.id then
    (.error (.alreadyExists book.id), s)
  else
    (.ok book, setKey s book.id book)

/-- `BookStorage.get_book`: rejects an empty id, otherwise returns
`self._books.get(book_id)` — `none` (not an error) when absent. -/
def get_book (s : Store) (book_id : String) :
    Except StorageErr (Option Book) :=
  if book_id = "" then
    .error (.invalidArgument "Book ID cannot be empty")
  else
    .ok (lookup s book_id)

/-- `BookStorage.update_book`: rejects an empty id; returns `none` (not an
error) when the id is absent, leaving the store unchanged; otherwise pins
`book.id = book_id` onto the candidate and replaces the entry. -/
def update_book (s : Store) (book_id : String) (book : Book) :
    Except StorageErr (Option Book) × Store :=
  if book_id = "" then
    (.error (.invalidArgument "Book ID cannot be empty"), s)
  else if ¬ containsKey s book_id then
    (.ok none, s)
  else
    let b := { book with id := book_id }
    (.ok (some b), setKey s book_id b)

/-- `BookStorage.delete_book`: rejects an empty id; removes the entry and
returns `true` when present, returns `false` (not an error) when absent. -/
def delete_book (s : Store) (book_id : String) :
    Except StorageErr Bool × Store :=
  if book_id = "" then
    (.error (.invalidArgument "Book ID cannot be empty"), s)
  else if containsKey s book_id then
    (.ok true, eraseKey s book_id)
  else
    (.ok false, s)

/-- `BookStorage.list_books`: all stored values, filtered when a truthy
`tag_filter` is given by `if book.tags and tag_filter in book.tags`.
The empty string is falsy in Python, so it behaves like no filter.
No reachable branch raises for typed books. -/
def list_books (s : Store) (tag_filter : Option String) : List Book :=
  let books := values s
  match tag_filter with
  | none => books
  | some t =>
    if t = "" then books
    else books.filter (fun book =>
      match book.tags with
      | none => false
      | some l => decide (l ≠ []) && l.contains t)

/-- The `BookResponse` pydantic response model (`book_models.py`). -/
structure BookResponse where
  id : String
  title : String
  author : String
  published_year : Int
  price : Rat
  tags : Option (List String)
  created_at : Nat
  updated_at : Nat
deriving Repr, DecidableEq

/-- The keyword arguments actually provided to a `BookResponse(...)`
construction; `none` means the keyword was omitted. -/
structure ResponseArgs where
  id : Option String
  title : Option String
  author : Option String
  published_year : Option Int
  price : Option Rat
  tags : Option (List String)
  created_at : Option Nat
  updated_at : Option Nat
deriving Repr, DecidableEq

/-- Pydantic construction of `BookResponse`: `id`, `title`, `author`,
`published_year`, `price`, `created_at` and `updated_at` are declared with
`Field(...)` and hence required; `tags` defaults to `None`. Any omitted
required field makes validation fail. -/
def mkBookResponse (a : ResponseArgs) : Except String BookResponse :=
  match a.id, a.title, a.author, a.published_year, a.price,
      a.created_at, a.updated_at with
  | some i, some t, some au, some y, some p, some c, some u =>
    .ok ⟨i, t, au, y, p, a.tags, c, u⟩
  | _, _, _, _, _, _, _ => .error "Field required"

/-- `book_to_response` (`storage.py`): constructs a `BookResponse` passing
only `id`, `title`, `author`, `published_year`, `price` and `tags`, omitting
`created_at` and `updated_at`; the resulting pydantic `ValidationError`
(a `ValueError` subclass) is wrapped into `BookStorageError`. -/
def book_to_response (book : Book) : Except StorageErr BookResponse :=
  match mkBookResponse ⟨some book.id, some book.title, some book.author,
      some book.published_year, some book.price, book.tags, none, none⟩ with
  | .ok r => .ok r
  | .error e => .error (.conversionError e)

/-- The `BookUpdate` request payload (`book_models.py`): every field is
optional. `none` models a field absent from the payload; a field explicitly
set to JSON `null` is not modelled (no claim depends on it). -/
structure BookUpdate where
  title : Option String
  author : Option String
  published_year : Option Int
  price : Option Rat
  tags : Option (List String)
deriving Repr, DecidableEq

/-- The `BookUpdate` pydantic checks on the fields present in the payload:
`title`/`author` non-empty after stripping, `1900 <= published_year <=`
current year, `price > 0`. Absent fields are not checked. -/
def validBookUpdate (currentYear : Int) (p : BookUpdate) : Bool :=
  (match p.title with
   | none => true
   | some v => !(v == "" || pyStrip v == "")) &&
  (match p.author with
   | none => true
   | some v => !(v == "" || pyStrip v == "")) &&
  (match p.published_year with
   | none => true
   | some v => decide (1900 ≤ v ∧ v ≤ currentYear)) &&
  (match p.price with
   | none => true
   | some v => decide (0 < v))

/-- HTTP-level outcomes of a route handler, by status code. -/
inductive RouteError where
  /-- 404, `"Book not found"`. -/
  | notFound
  /-- 422, a pydantic `ValidationError`. -/
  | validation (e : ValErr)
  /-- 500, an unexpected error (`BookStorageError` included). -/
  | internal (msg : String)
deriving Repr, DecidableEq

/-- The `create_book` route (`books.py`) after request-model validation:
builds a `Book` with the generated id (passed in as `book_id`, the
`uuid.uuid4()` value) and fresh default timestamps, stores it, and converts
the stored book to a response. A `BookStorageError` — from storage or from
`book_to_response` — is caught by `except Exception` and mapped to 500,
after any storage mutation already performed. -/
def create_book_route (currentYear : Int) (now : Nat) (s : Store)
    (book_id title author : String) (published_year : Int) (price : Rat)
    (tags : Option (List String)) : Except RouteError BookResponse × Store :=
  match mkBook currentYear now book_id title author published_year price tags with
  | .error e => (.error (.validation e), s)
  | .ok book =>
    match create_book s book with
    | (.error _, s1) => (.error (.internal "Failed to create book"), s1)
    | (.ok created, s1) =>
      match book_to_response created with
      | .ok r => (.ok r, s1)
      | .error _ => (.error (.internal "Failed to create book"), s1)

/-- The `update_book` route (`books.py`), embedded from the point after the
UUID-format check on `book_id`: looks the record up (404 when absent),
merges the payload fields present in `update_data` over the existing
record's values, constructs a fresh `Book` (`validate_on_init`, fresh
default timestamps, `created_at`/`updated_at` not carried over), stores it
under the same id, and converts it to a response. -/
def update_book_route (currentYear : Int) (now : Nat) (s : Store)
    (book_id : String) (p : BookUpdate) :
    Except RouteError BookResponse × Store :=
  match get_book s book_id with
  | .error _ => (.error (.internal "Failed to update book"), s)
  | .ok none => (.error .notFound, s)
  | .ok (some existing) =>
    match mkBook currentYear now book_id
        (p.title.getD existing.title)
        (p.author.getD existing.author)
        (p.published_year.getD existing.published_year)
        (p.price.getD existing.price)
        (match p.tags with
         | some t => some t
         | none => existing.tags) with
    | .error e => (.error (.validation e), s)
    | .ok updated =>
      match update_book s book_id updated with
      | (.error _, s1) => (.error (.internal "Failed to update book"), s1)
      | (.ok _, s1) =>
        match book_to_response updated with
        | .ok r => (.ok r, s1)
        | .error _ => (.error (.internal "Failed to update book"), s1)

/-- State-changing storage operations, for reasoning about operation
sequences. -/
inductive Op where
  | create (b : Book)
  | update (id : String) (b : Book)
  | delete (id : String)
deriving Repr

/-- The store resulting from one storage operation (a raised error leaves
the store unchanged). -/
def applyOp (s : Store) : Op → Store
  | .create b => (create_book s b).2
  | .update i b => (update_book s i b).2
  | .delete i => (delete_book s i).2

/-- The store after running a sequence of operations from the empty store
(`BookStorage.__init__` sets `self._books = {}`). -/
def runOps (ops : List Op) : Store := ops.foldl applyOp []

/-- Store well-formedness: keys are pairwise distinct and every entry is
keyed by its record's own id. -/
def StoreWF (s : Store) : Prop :=
  (keys s).Nodup ∧ ∀ p ∈ s, p.2.id = p.1

/-- The full replacement record the `update_book` route builds for an
existing record `ex` and payload `p`: present payload fields override,
absent ones inherit, the id is the path id, and both timestamps take the
current clock value (the outcome of the route's `Book(...)` construction
when its validation passes). -/
def mergeUpdate (now : Nat) (id : String) (ex : Book) (p : BookUpdate) :
    Book :=
  ⟨id, pyStrip (p.title.getD ex.title), pyStrip (p.author.getD ex.author),
    p.published_year.getD ex.published_year, p.price.getD ex.price,
    (match p.tags with
     | some t => some t
     | none => ex.tags), now, now⟩

/-- Sample records (integer prices, already-normalized strings). -/
def bookDune : Book :=
  ⟨"b1", "Dune", "Frank Herbert", 1965, 499, some ["scifi", "fiction"], 10, 10⟩

/-- A second record carrying the same id as `bookDune`. -/
def bookDuneDup : Book :=
  ⟨"b1", "Second Foundation", "Isaac Asimov", 1953, 150, none, 11, 11⟩

/-- A record with no tags and its own id. -/
def bookEmma : Book :=
  ⟨"b3", "Emma", "Jane Austen", 1915, 200, none, 12, 12⟩


theorem keys_nil : keys [] = [] := rfl

theorem keys_cons (p : String × Book) (s : Store) :
    keys (p :: s) = p.1 :: keys s := rfl

theorem containsKey_iff (s : Store) (k : String) :
    containsKey s k = true ↔ k ∈ keys s := by
  induction s with
  | nil => simp [containsKey, keys]
  | cons p rest ih =>
    simp only [containsKey, Bool.or_eq_true, beq_iff_eq, keys_cons,
      List.mem_cons, ih]
    constructor
    · rintro (h | h)
      · exact Or.inl h.symm
      · exact Or.inr h
    · rintro (h | h)
      · exact Or.inl h.symm
      · exact Or.inr h

theorem lookup_eq_none_of_not_contains (s : Store) (k : String)
    (h : containsKey s k = false) : lookup s k = none := by
  induction s with
  | nil => rfl
  | cons p rest ih =>
    simp only [containsKey, Bool.or_eq_false_iff] at h
    simp [lookup, h.1, ih h.2]

theorem contains_of_lookup_eq_some (s : Store) (k : String) (b : Book)
    (h : lookup s k = some b) : containsKey s k = true := by
  induction s with
  | nil => simp [lookup] at h
  | cons p rest ih =>
    by_cases hp : p.1 = k
    · simp [containsKey, hp]
    · simp only [lookup, beq_iff_eq, hp, if_false] at h
      simp [containsKey, ih h]

theorem lookup_setKey_self (s : Store) (k : String) (b : Book) :
    lookup (setKey s k b) k = some b := by
  induction s with
  | nil => simp [setKey, lookup]
  | cons p rest ih =>
    by_cases hp : p.1 = k
    · simp [setKey, lookup, hp]
    · simp [setKey, lookup, hp, ih]

theorem lookup_setKey_ne (s : Store) (k k' : String) (b : Book)
    (h : k' ≠ k) : lookup (setKey s k b) k' = lookup s k' := by
  induction s with
  | nil => simp [setKey, lookup, Ne.symm h]
  | cons p rest ih =>
    by_cases hp : p.1 = k
    · simp [setKey, lookup, hp, Ne.symm h]
    · simp only [setKey, beq_iff_eq, hp, if_false]
      by_cases hp' : p.1 = k'
      · simp [lookup, hp']
      · simp [lookup, hp', ih]

theorem keys_setKey_of_contains (s : Store) (k : String) (b : Book)
    (h : containsKey s k = true) : keys (setKey s k b) = keys s := by
  induction s with
  | nil => simp [containsKey] at h
  | cons p rest ih =>
    by_cases hp : p.1 = k
    · simp [setKey, keys_cons, hp]
    · simp only [containsKey, Bool.or_eq_true, beq_iff_eq, hp, false_or] at h
      simp [setKey, keys_cons, hp, ih h]

theorem keys_setKey_of_not_contains (s : Store) (k : String) (b : Book)
    (h : containsKey s k = false) : keys (setKey s k b) = keys s ++ [k] := by
  induction s with
  | nil => simp [setKey, keys]
  | cons p rest ih =>
    simp only [containsKey, Bool.or_eq_false_iff, beq_eq_false_iff_ne] at h
    simp [setKey, keys_cons, h.1, ih h.2]

theorem mem_setKey (s : Store) (k : String) (b : Book)
    (p : String × Book) (h : p ∈ setKey s k b) : p = (k, b) ∨ p ∈ s := by
  induction s with
  | nil => simpa [setKey] using h
  | cons q rest ih =>
    by_cases hq : q.1 = k
    · simp only [setKey, beq_iff_eq, hq, if_true, List.mem_cons] at h
      rcases h with h | h
      · exact .inl h
      · exact .inr (List.mem_cons_of_mem _ h)
    · simp only [setKey, beq_iff_eq, hq, if_false, List.mem_cons] at h
      rcases h with h | h
      · exact .inr (h ▸ List.mem_cons_self _ _)
      · rcases ih h with h' | h'
        · exact .inl h'
        · exact .inr (List.mem_cons_of_mem _ h')

theorem eraseKey_sublist (s : Store) (k : String) :
    List.Sublist (eraseKey s k) s := by
  induction s with
  | nil => simp [eraseKey]
  | cons p rest ih =>
    by_cases hp : p.1 = k
    · simp only [eraseKey, beq_iff_eq, hp, if_true]
      exact ih.cons _
    · simp only [eraseKey, beq_iff_eq, hp, if_false]
      exact ih.cons₂ _

theorem storeWF_setKey (s : Store) (k : String) (b : Book)
    (h : StoreWF s) (hbk : b.id = k) : StoreWF (setKey s k b) := by
  obtain ⟨hnd, hid⟩ := h
  refine ⟨?_, ?_⟩
  · by_cases hc : containsKey s k = true
    · rw [keys_setKey_of_contains s k b hc]; exact hnd
    · rw [keys_setKey_of_not_contains s k b (by simpa using hc)]
      have hmem : k ∉ keys s := fun hm => hc ((containsKey_iff s k).mpr hm)
      simp [List.nodup_append, hnd, hmem]
  · intro p hp
    rcases mem_setKey s k b p hp with h' | h'
    · rw [h']; exact hbk
    · exact hid p h'

theorem storeWF_eraseKey (s : Store) (k : String) (h : StoreWF s) :
    StoreWF (eraseKey s k) := by
  obtain ⟨hnd, hid⟩ := h
  refine ⟨?_, ?_⟩
  · exact List.Nodup.sublist ((eraseKey_sublist s k).map Prod.fst) hnd
  · intro p hp
    exact hid p ((eraseKey_sublist s k).subset hp)

theorem storeWF_applyOp (s : Store) (op : Op) (h : StoreWF s) :
    StoreWF (applyOp s op) := by
  cases op with
  | create b =>
    show StoreWF (create_book s b).2
    unfold create_book
    by_cases h1 : b.id = ""
    · simpa [h1] using h
    · by_cases h2 : containsKey s b.id = true
      · simpa [h1, h2] using h
      · have h2' : containsKey s b.id = false := by simpa using h2
        simpa [h1, h2'] using storeWF_setKey s b.id b h rfl
  | update i b =>
    show StoreWF (update_book s i b).2
    unfold update_book
    by_cases h1 : i = ""
    · simpa [h1] using h
    · by_cases h2 : containsKey s i = true
      · simpa [h1, h2] using storeWF_setKey s i { b with id := i } h rfl
      · have h2' : containsKey s i = false := by simpa using h2
        simpa [h1, h2'] using h
  | delete i =>
    show StoreWF (delete_book s i).2
    unfold delete_book
    by_cases h1 : i = ""
    · simpa [h1] using h
    · by_cases h2 : containsKey s i = true
      · simpa [h1, h2] using storeWF_eraseKey s i h
      · have h2' : containsKey s i = false := by simpa using h2
        simpa [h1, h2'] using h

theorem storeWF_foldl (ops : List Op) (s : Store) (h : StoreWF s) :
    StoreWF (ops.foldl applyOp s) := by
  induction ops generalizing s with
  | nil => exact h
  | cons op rest ih => exact ih (applyOp s op) (storeWF_applyOp s op h)

theorem storeWF_runOps (ops : List Op) : StoreWF (runOps ops) :=
  storeWF_foldl ops [] ⟨List.nodup_nil, by simp⟩

theorem pyStrip_empty : pyStrip "" = "" := rfl

theorem empty_or_strip_iff (t : String) :
    (t = "" ∨ pyStrip t = "") ↔ pyStrip t = "" :=
  ⟨fun h => h.elim (fun h' => h' ▸ pyStrip_empty) id, Or.inr⟩

theorem mkBook_isOk_iff (currentYear : Int) (now : Nat)
    (id title author : String) (published_year : Int) (price : Rat)
    (tags : Option (List String)) :
    (mkBook currentYear now id title author published_year price tags).isOk
      = true ↔
    (pyStrip title ≠ "" ∧ pyStrip author ≠ "" ∧ 1900 ≤ published_year ∧
      published_year ≤ currentYear ∧ 0 < price) := by
  unfold mkBook
  split_ifs with c1 c2 c3 c4
  · simp only [Except.isOk, Except.toBool, Bool.false_eq_true, false_iff]
    rintro ⟨h, -, -, -, -⟩
    exact h ((empty_or_strip_iff title).mp c1)
  · simp only [Except.isOk, Except.toBool, Bool.false_eq_true, false_iff]
    rintro ⟨-, h, -, -, -⟩
    exact h ((empty_or_strip_iff author).mp c2)
  · simp only [Except.isOk, Except.toBool, Bool.false_eq_true, false_iff]
    rintro ⟨-, -, -, -, h5⟩
    exact absurd h5 (not_lt.mpr c4)
  · simp only [Except.isOk, Except.toBool, true_iff]
    push_neg at c1 c2
    exact ⟨c1.2, c2.2, c3.1, c3.2, not_le.mp c4⟩
  · simp only [Except.isOk, Except.toBool, Bool.false_eq_true, false_iff]
    rintro ⟨-, -, h3, h4, -⟩
    exact c3 ⟨h3, h4⟩

theorem mkBook_ok_elim (currentYear : Int) (now : Nat)
    (id title author : String) (published_year : Int) (price : Rat)
    (tags : Option (List String)) (b : Book)
    (h : mkBook currentYear now id title author published_year price tags
      = .ok b) :
    b = ⟨id, pyStrip title, pyStrip author, published_year, price, tags,
      now, now⟩ := by
  unfold mkBook at h
  split_ifs at h
  all_goals first
  | exact Except.noConfusion h
  | exact (Except.ok.inj h).symm

theorem mkBook_ok_of (currentYear : Int) (now : Nat)
    (id title author : String) (published_year : Int) (price : Rat)
    (tags : Option (List String))
    (h1 : pyStrip title ≠ "") (h2 : pyStrip author ≠ "")
    (h3 : 1900 ≤ published_year) (h4 : published_year ≤ currentYear)
    (h5 : 0 < price) :
    mkBook currentYear now id title author published_year price tags
      = .ok ⟨id, pyStrip title, pyStrip author, published_year, price, tags,
        now, now⟩ := by
  unfold mkBook
  rw [if_neg (fun hc => h1 ((empty_or_strip_iff title).mp hc)),
    if_neg (fun hc => h2 ((empty_or_strip_iff author).mp hc)),
    if_neg (not_not_intro ⟨h3, h4⟩), if_neg (not_le.mpr h5)]

/-- C1: over every sequence of Create calls from the empty store, no two
successfully-created records share an id (the stored keys stay pairwise
distinct), and a Create whose record id is already present always fails
with the `AlreadyExists` error kind — raised as an error, not a silent
overwrite — leaving the store unchanged. -/
theorem create_duplicate_id_rejected :
    (∀ bs : List Book, (keys (runOps (bs.map Op.create))).Nodup) ∧
    (∀ (s : Store) (b : Book), b.id ≠ "" → containsKey s b.id = true →
      create_book s b = (.error (.alreadyExists b.id), s)) := by
  constructor
  · intro bs
    exact (storeWF_runOps (bs.map Op.create)).1
  · intro s b h1 h2
    unfold create_book
    simp [h1, h2]

/-- Witness for C1 at a concrete duplicate-id Create. -/
theorem create_duplicate_id_rejected_witness :
    create_book [("b1", bookDune)] bookDuneDup =
      (.error (.alreadyExists "b1"), [("b1", bookDune)]) :=
  create_duplicate_id_rejected.2 [("b1", bookDune)] bookDuneDup
    (by decide) (by decide)

/-- C2: a successful `Update(id, c)` stores a record whose id equals the
given `id` — never the candidate's own id field — and that record is what
the store holds at `id` afterwards. -/
theorem update_preserves_id (s : Store) (book_id : String) (c b' : Book)
    (s' : Store)
    (h : update_book s book_id c = (.ok (some b'), s')) :
    b'.id = book_id ∧ lookup s' book_id = some b' := by
  by_cases h1 : book_id = ""
  · unfold update_book at h
    simp [h1] at h
  · by_cases h2 : containsKey s book_id = true
    · have he : update_book s book_id c =
          (.ok (some { c with id := book_id }),
            setKey s book_id { c with id := book_id }) := by
        unfold update_book
        rw [if_neg h1, if_neg (not_not_intro h2)]
      rw [he, Prod.mk.injEq] at h
      obtain ⟨hb, hs⟩ := h
      injection hb with hb
      injection hb with hb
      rw [← hb, ← hs]
      exact ⟨rfl, lookup_setKey_self s book_id _⟩
    · have h2' : containsKey s book_id = false := by simpa using h2
      unfold update_book at h
      simp [h1, h2'] at h

/-- Witness for C2: updating id `"b1"` with a candidate whose own id field
is `"b3"` stores the record under `"b1"` with id `"b1"`. -/
theorem update_preserves_id_witness :
    ({ bookEmma with id := "b1" } : Book).id = "b1" ∧
      lookup (setKey [("b1", bookDune)] "b1" { bookEmma with id := "b1" })
        "b1" = some { bookEmma with id := "b1" } :=
  update_preserves_id [("b1", bookDune)] "b1" bookEmma _ _ rfl

/-- C5: record construction succeeds exactly when the stripped title and
author are non-empty, the published year lies in `[1900, current year]`
(so 1899 and `current year + 1` fail) and the price is strictly positive
(so 0 and negatives fail); on success the title and author come out
stripped of surrounding whitespace. -/
theorem validation_bounds (currentYear : Int) (now : Nat)
    (id title author : String) (published_year : Int) (price : Rat)
    (tags : Option (List String)) :
    ((mkBook currentYear now id title author published_year price tags).isOk
        = true ↔
      (pyStrip title ≠ "" ∧ pyStrip author ≠ "" ∧ 1900 ≤ published_year ∧
        published_year ≤ currentYear ∧ 0 < price)) ∧
    (∀ b, mkBook currentYear now id title author published_year price tags
        = .ok b →
      b.title = pyStrip title ∧ b.author = pyStrip author ∧
        b.published_year = published_year ∧ b.price = price ∧
        b.tags = tags) := by
  refine ⟨mkBook_isOk_iff currentYear now id title author published_year
    price tags, ?_⟩
  intro b h
  rw [mkBook_ok_elim currentYear now id title author published_year price
    tags b h]
  exact ⟨rfl, rfl, rfl, rfl, rfl⟩

/-- Witness for C5: `" The Hobbit "` (padded), year 1937 within bounds and
a positive price pass, with the stored title stripped; `"   "` as author
fails; year 1899 fails; price 0 fails. -/
theorem validation_bounds_witness :
    (mkBook 2025 3 "w1" " The Hobbit " "Tolkien" 1937 300 none).isOk
        = true ∧
    (⟨"w1", pyStrip " The Hobbit ", pyStrip "Tolkien", 1937, 300, none, 3,
        3⟩ : Book).title = "The Hobbit" ∧
    (mkBook 2025 3 "w2" "A" "   " 1937 300 none).isOk = false ∧
    (mkBook 2025 3 "w3" "A" "B" 1899 300 none).isOk = false ∧
    (mkBook 2025 3 "w4" "A" "B" 2026 300 none).isOk = false ∧
    (mkBook 2025 3 "w5" "A" "B" 1937 0 none).isOk = false := by
  refine ⟨(validation_bounds 2025 3 "w1" " The Hobbit " "Tolkien" 1937 300
    none).1.mpr (by decide), ?_, by decide, by decide, by decide, by decide⟩
  exact ((validation_bounds 2025 3 "w1" " The Hobbit " "Tolkien" 1937 300
    none).2 _ rfl).1.trans (by decide)

/-- C6: for a non-empty id absent from the store, Get returns the explicit
no-entry result, Update returns the no-entry result leaving the store
unchanged, and Delete returns `false` — none of them raising an error. -/
theorem absent_id_not_error (s : Store) (id : String) (c : Book)
    (h1 : id ≠ "") (h2 : containsKey s id = false) :
    get_book s id = .ok none ∧
    update_book s id c = (.ok none, s) ∧
    delete_book s id = (.ok false, s) := by
  refine ⟨?_, ?_, ?_⟩
  · unfold get_book
    rw [if_neg h1, lookup_eq_none_of_not_contains s id h2]
  · unfold update_book
    rw [if_neg h1, if_pos (by simp [h2])]
  · unfold delete_book
    rw [if_neg h1, if_neg (by simp [h2])]

/-- Witness for C6 at an id not present in a one-record store. -/
theorem absent_id_not_error_witness :
    get_book [("b1", bookDune)] "zzz" = .ok none ∧
    update_book [("b1", bookDune)] "zzz" bookEmma =
      (.ok none, [("b1", bookDune)]) ∧
    delete_book [("b1", bookDune)] "zzz" = (.ok false, [("b1", bookDune)]) :=
  absent_id_not_error [("b1", bookDune)] "zzz" bookEmma
    (by decide) (by decide)

/-- C7: with a non-empty filter string `t`, List returns exactly the stored
records whose tags sequence contains `t` as an exact (case-sensitive)
element, records with absent tags excluded; List without a filter returns
all stored records; List on the empty store returns the empty sequence,
not an error. -/
theorem list_tag_filter_exact (s : Store) (t : String) (h : t ≠ "") :
    list_books s (some t) = (values s).filter (fun b =>
      match b.tags with
      | some l => l.contains t
      | none => false) ∧
    list_books s none = values s ∧
    list_books ([] : Store) (some t) = [] ∧
    list_books ([] : Store) none = [] := by
  have hfilter : list_books s (some t) = (values s).filter (fun b =>
      match b.tags with
      | some l => l.contains t
      | none => false) := by
    simp only [list_books]
    rw [if_neg h]
    apply List.filter_congr
    intro b hb
    cases b.tags with
    | none => rfl
    | some l =>
      cases l with
      | nil => simp
      | cons x xs => simp
  refine ⟨hfilter, rfl, ?_, rfl⟩
  simp only [list_books]
  rw [if_neg h]
  rfl

/-- Witness for C7: filtering three records by `"fiction"` keeps exactly
the two whose tag lists contain the literal `"fiction"`; `["Fiction"]`
(different case) and absent tags are excluded. -/
theorem list_tag_filter_exact_witness :
    list_books [("b1", bookDune), ("b3", bookEmma),
        ("b4", ⟨"b4", "Foo", "Bar", 2001, 30, some ["Fiction"], 13, 13⟩),
        ("b5", ⟨"b5", "Baz", "Qux", 2002, 40, some ["fiction"], 14, 14⟩)]
      (some "fiction") =
    (values [("b1", bookDune), ("b3", bookEmma),
        ("b4", ⟨"b4", "Foo", "Bar", 2001, 30, some ["Fiction"], 13, 13⟩),
        ("b5", ⟨"b5", "Baz", "Qux", 2002, 40, some ["fiction"], 14, 14⟩)]).filter
      (fun b =>
        match b.tags with
        | some l => l.contains "fiction"
        | none => false) ∧
    list_books [("b1", bookDune)] none = values [("b1", bookDune)] ∧
    list_books ([] : Store) (some "fiction") = [] ∧
    list_books ([] : Store) none = [] :=
  list_tag_filter_exact [("b1", bookDune), ("b3", bookEmma),
    ("b4", ⟨"b4", "Foo", "Bar", 2001, 30, some ["Fiction"], 13, 13⟩),
    ("b5", ⟨"b5", "Baz", "Qux", 2002, 40, some ["fiction"], 14, 14⟩)]
    "fiction" (by decide)
  |>.imp id (fun h2 => ⟨rfl, h2.2.1, h2.2.2⟩)

/-- C8: creating a record with a fresh non-empty id succeeds and a
following Get of that id returns the very same record, all fields
included. -/
theorem create_get_roundtrip (s : Store) (b : Book)
    (h1 : b.id ≠ "") (h2 : containsKey s b.id = false) :
    create_book s b = (.ok b, setKey s b.id b) ∧
    get_book (setKey s b.id b) b.id = .ok (some b) := by
  constructor
  · unfold create_book
    rw [if_neg h1, if_neg (by simp [h2])]
  · unfold get_book
    rw [if_neg h1, lookup_setKey_self]

/-- Witness for C8: a record created with `tags = none` round-trips with
`tags` still `none`. -/
theorem create_get_roundtrip_witness :
    (create_book [] bookEmma = (.ok bookEmma, setKey [] "b3" bookEmma) ∧
      get_book (setKey [] "b3" bookEmma) "b3" = .ok (some bookEmma)) ∧
    bookEmma.tags = none :=
  ⟨create_get_roundtrip [] bookEmma (by decide) (by decide), rfl⟩

/-- C9: `book_to_response` omits the `created_at` and `updated_at` fields
that `BookResponse` declares as required, so for every book the conversion
fails with a `BookStorageError`; no book is ever successfully converted. -/
theorem book_to_response_always_fails (b : Book) :
    book_to_response b = .error (.conversionError "Field required") := rfl

/-- C10: after any sequence of Create, Update and Delete operations from
the empty store, every stored entry is keyed by its record's own id. -/
theorem store_key_matches_record_id (ops : List Op) (p : String × Book)
    (hp : p ∈ runOps ops) : p.2.id = p.1 :=
  (storeWF_runOps ops).2 p hp

/-- Witness for C10: a create followed by an update with a candidate whose
id field differs still leaves the entry keyed by its record's id. -/
theorem store_key_matches_record_id_witness :
    ({ bookEmma with id := "b1" } : Book).id = "b1" :=
  store_key_matches_record_id
    [Op.create bookDune, Op.update "b1" bookEmma]
    ("b1", { bookEmma with id := "b1" }) (by decide)


theorem book_to_response_eq (b : Book) :
    book_to_response b = .error (.conversionError "Field required") := rfl

/-- C3 (amended): for an existing normalized record and a payload passing
the `BookUpdate` checks, the merged full-replacement record re-validates
successfully as a whole; each of the five payload fields (title, author,
published_year, price, tags) absent from the payload inherits the existing
record's value unchanged in the stored result, while the timestamp fields
are regenerated at update time rather than inherited. -/
theorem partial_update_merge (y : Int) (now : Nat) (s : Store)
    (id : String) (ex : Book) (p : BookUpdate)
    (hex : lookup s id = some ex) (hid : id ≠ "")
    (ht : pyStrip ex.title = ex.title) (ht' : ex.title ≠ "")
    (ha : pyStrip ex.author = ex.author) (ha' : ex.author ≠ "")
    (hy : 1900 ≤ ex.published_year) (hy' : ex.published_year ≤ y)
    (hpr : 0 < ex.price) (hp : validBookUpdate y p = true) :
    ∃ b, lookup (update_book_route y now s id p).2 id = some b ∧
      b.id = id ∧
      (p.title = none → b.title = ex.title) ∧
      (p.author = none → b.author = ex.author) ∧
      (p.published_year = none → b.published_year = ex.published_year) ∧
      (p.price = none → b.price = ex.price) ∧
      (p.tags = none → b.tags = ex.tags) ∧
      b.created_at = now ∧ b.updated_at = now := by
  unfold validBookUpdate at hp
  rw [Bool.and_eq_true, Bool.and_eq_true, Bool.and_eq_true] at hp
  obtain ⟨⟨⟨hpt, hpa⟩, hpy⟩, hppr⟩ := hp
  have htm : pyStrip (p.title.getD ex.title) ≠ "" := by
    cases hc : p.title with
    | none =>
      rw [Option.getD_none, ht]
      exact ht'
    | some v =>
      rw [Option.getD_some]
      rw [hc] at hpt
      simp only [Bool.not_eq_true', Bool.or_eq_false_iff,
        beq_eq_false_iff_ne] at hpt
      exact hpt.2
  have ham : pyStrip (p.author.getD ex.author) ≠ "" := by
    cases hc : p.author with
    | none =>
      rw [Option.getD_none, ha]
      exact ha'
    | some v =>
      rw [Option.getD_some]
      rw [hc] at hpa
      simp only [Bool.not_eq_true', Bool.or_eq_false_iff,
        beq_eq_false_iff_ne] at hpa
      exact hpa.2
  have hym : 1900 ≤ p.published_year.getD ex.published_year ∧
      p.published_year.getD ex.published_year ≤ y := by
    cases hc : p.published_year with
    | none =>
      rw [Option.getD_none]
      exact ⟨hy, hy'⟩
    | some v =>
      rw [Option.getD_some]
      rw [hc] at hpy
      simpa using hpy
  have hprm : 0 < p.price.getD ex.price := by
    cases hc : p.price with
    | none =>
      rw [Option.getD_none]
      exact hpr
    | some v =>
      rw [Option.getD_some]
      rw [hc] at hppr
      simpa using hppr
  have hget : get_book s id = .ok (some ex) := by
    unfold get_book
    rw [if_neg hid, hex]
  have hmk : mkBook y now id (p.title.getD ex.title) (p.author.getD ex.author)
      (p.published_year.getD ex.published_year) (p.price.getD ex.price)
      (match p.tags with
       | some t => some t
       | none => ex.tags) = .ok (mergeUpdate now id ex p) :=
    mkBook_ok_of y now id (p.title.getD ex.title) (p.author.getD ex.author)
      (p.published_year.getD ex.published_year) (p.price.getD ex.price)
      (match p.tags with
       | some t => some t
       | none => ex.tags) htm ham hym.1 hym.2 hprm
  have hcont : containsKey s id = true := contains_of_lookup_eq_some s id ex hex
  have hupd : update_book s id (mergeUpdate now id ex p) =
      (.ok (some (mergeUpdate now id ex p)),
        setKey s id (mergeUpdate now id ex p)) := by
    unfold update_book
    rw [if_neg hid, if_neg (not_not_intro hcont)]
    rfl
  have hs2 : (update_book_route y now s id p).2 =
      setKey s id (mergeUpdate now id ex p) := by
    simp only [update_book_route, hget, hmk, hupd, book_to_response_eq]
  refine ⟨mergeUpdate now id ex p, ?_, rfl, ?_, ?_, ?_, ?_, ?_, rfl, rfl⟩
  · rw [hs2]
    exact lookup_setKey_self s id _
  · intro hc
    show pyStrip (p.title.getD ex.title) = ex.title
    rw [hc, Option.getD_none, ht]
  · intro hc
    show pyStrip (p.author.getD ex.author) = ex.author
    rw [hc, Option.getD_none, ha]
  · intro hc
    show p.published_year.getD ex.published_year = ex.published_year
    rw [hc, Option.getD_none]
  · intro hc
    show p.price.getD ex.price = ex.price
    rw [hc, Option.getD_none]
  · intro hc
    show (match p.tags with
      | some t => some t
      | none => ex.tags) = ex.tags
    rw [hc]

/-- Witness for C3 (amended): updating only the price leaves title, author,
year and tags at the existing record's values. -/
theorem partial_update_merge_witness :
    ∃ b, lookup (update_book_route 2024 50
        [("m1", ⟨"m1", "Title", "Author", 2000, 30, none, 5, 5⟩)] "m1"
        ⟨none, none, none, some 60, none⟩).2 "m1" = some b ∧
      b.id = "m1" ∧
      ((⟨none, none, none, some 60, none⟩ : BookUpdate).title = none →
        b.title = "Title") ∧
      ((⟨none, none, none, some 60, none⟩ : BookUpdate).author = none →
        b.author = "Author") ∧
      ((⟨none, none, none, some 60, none⟩ : BookUpdate).published_year
          = none → b.published_year = 2000) ∧
      ((⟨none, none, none, some 60, none⟩ : BookUpdate).price = none →
        b.price = 30) ∧
      ((⟨none, none, none, some 60, none⟩ : BookUpdate).tags = none →
        b.tags = none) ∧
      b.created_at = 50 ∧ b.updated_at = 50 :=
  partial_update_merge 2024 50
    [("m1", ⟨"m1", "Title", "Author", 2000, 30, none, 5, 5⟩)] "m1"
    ⟨"m1", "Title", "Author", 2000, 30, none, 5, 5⟩
    ⟨none, none, none, some 60, none⟩ rfl (by decide) (by decide)
    (by decide) (by decide) (by decide) (by decide) (by decide) (by decide)
    (by decide)

/-- C3 counterexample: `created_at` is a record field absent from every
partial-update payload, yet after a title-only update of a record created
at clock 7 the stored record's `created_at` is the update clock 9, not the
existing record's value — so not every field absent from the payload keeps
the existing record's value. -/
theorem partial_update_counterexample :
    lookup (update_book_route 2024 9
        [("c1", ⟨"c1", "Old Title", "Ann Author", 2000, 50, some ["x"], 7,
          7⟩)] "c1" ⟨some "New Title", none, none, none, none⟩).2 "c1" =
      some ⟨"c1", "New Title", "Ann Author", 2000, 50, some ["x"], 9, 9⟩ ∧
    (⟨"c1", "New Title", "Ann Author", 2000, 50, some ["x"], 9, 9⟩ :
        Book).created_at ≠
      (⟨"c1", "Old Title", "Ann Author", 2000, 50, some ["x"], 7, 7⟩ :
        Book).created_at :=
  ⟨by decide, by decide⟩

/-- C4 (divergence exhibited): a record created at clock 100 has
`created_at = 100`; after a price-only update at clock 200 the stored
record's `created_at` is 200 — the update route rebuilds the `Book`
without carrying `created_at` over, so the timestamp is regenerated
instead of preserved. -/
theorem update_resets_created_at :
    lookup (create_book_route 2024 100 [] "u1" "Dune" "Frank Herbert" 1965
        499 none).2 "u1" =
      some ⟨"u1", "Dune", "Frank Herbert", 1965, 499, none, 100, 100⟩ ∧
    lookup (update_book_route 2024 200
        (create_book_route 2024 100 [] "u1" "Dune" "Frank Herbert" 1965
          499 none).2 "u1" ⟨none, none, none, some 550, none⟩).2 "u1" =
      some ⟨"u1", "Dune", "Frank Herbert", 1965, 550, none, 200, 200⟩ ∧
    (200 : Nat) ≠ 100 :=
  ⟨by decide, by decide, by decide⟩

end BookService
